import Mathlib

/-!
A shallow embedding of the TCI-Trucking server (`src/server.js`): the driver
collection, the tracking-toggle route, the location-ingestion route, the
seeding route and the listing route, with the JavaScript and Mongoose/MongoDB
semantics the routes rely on made explicit.  Request bodies are modelled as
`JSVal`s (a field absent from the body destructures to `undefined`), numbers
as rationals, and dates as rational millisecond stamps.
-/

namespace TCITrucking

/-- A JavaScript value as it appears in a decoded JSON request body.
`undef` stands for a field that is absent from the body (destructuring such a
field yields `undefined`). -/
inductive JSVal where
  | undef
  | null
  | bool (b : Bool)
  | num (q : ℚ)
  | str (s : String)
deriving DecidableEq

/-- JavaScript truthiness (`ToBoolean`) on the modelled values. -/
def truthy : JSVal → Bool
  | .undef => false
  | .null => false
  | .bool b => b
  | .num q => decide (q ≠ 0)
  | .str s => decide (s ≠ "")

/-- Model of ECMAScript string-to-number conversion (the cast Mongoose applies
when a `Number` schema path receives a string), restricted to the grammar this
development exercises: the empty string converts to `0` and a nonempty digit
string converts to the number it spells; every string outside this subset is
treated as converting to `NaN`, which makes the Mongoose cast throw. -/
def parseNumStr (s : String) : Option ℚ :=
  if s = "" then some 0
  else if s.toList.all Char.isDigit then
    some ((s.toList.foldl (fun n c => 10 * n + (c.toNat - 48)) 0 : ℕ) : ℚ)
  else none

/-- Model of ECMAScript `Date.parse`, restricted to the `YYYY-MM-DD` grammar:
such a string (with a plausible month and day) parses to a schematic
millisecond value, and every other string yields an invalid date. -/
def parseDateStr (s : String) : Option ℚ :=
  match s.toList with
  | [y1, y2, y3, y4, c1, m1, m2, c2, d1, d2] =>
    let dv : Char → ℕ := fun c => c.toNat - 48
    let year := 1000 * dv y1 + 100 * dv y2 + 10 * dv y3 + dv y4
    let month := 10 * dv m1 + dv m2
    let day := 10 * dv d1 + dv d2
    if c1 = '-' ∧ c2 = '-' ∧ ([y1, y2, y3, y4, m1, m2, d1, d2].all Char.isDigit = true)
        ∧ 1 ≤ month ∧ month ≤ 12 ∧ 1 ≤ day ∧ day ≤ 31 then
      some ((year * 10000 + month * 100 + day : ℕ) : ℚ)
    else none
  | _ => none

/-- The value of `new Date(v)` on the modelled values: `some t` (milliseconds)
for a valid date, `none` for an Invalid Date.  `new Date(undefined)` is an
Invalid Date and `new Date(null)` is the epoch. -/
def jsDate : JSVal → Option ℚ
  | .undef => none
  | .null => some 0
  | .bool b => some (if b then 1 else 0)
  | .num q => some q
  | .str s => parseDateStr s

/-- Mongoose casting of a request value written to a `Number` schema path
inside an update document: `none` is a CastError (the whole
`findOneAndUpdate` throws), `some none` means the key is dropped / the field
left unset (`undefined`, `null`), and `some (some q)` is the stored number. -/
def castNumber : JSVal → Option (Option ℚ)
  | .undef => some none
  | .null => some none
  | .bool b => some (some (if b then 1 else 0))
  | .num q => some (some q)
  | .str s => (parseNumStr s).map some

/-- A stored location subdocument (`lastLocation` and the elements of
`trackingHistory` in the driver schema).  The schema's `address` path is never
written by any route and is omitted. -/
structure Location where
  lat : Option ℚ
  lng : Option ℚ
  accuracy : Option ℚ
  timestamp : ℚ
  speed : ℚ
deriving DecidableEq

/-- A driver document.  `consentTimestamp := none` models the field being
unset as well as an explicit `null`. -/
structure Driver where
  name : String
  phone : String
  isTracking : Bool
  consentGiven : Bool
  consentTimestamp : Option ℚ
  lastLocation : Option Location
  trackingHistory : List Location
deriving DecidableEq

/-- One document of the `drivers` collection together with its `_id` and the
`createdAt` stamp added by `{ timestamps: true }`.  Identifiers and creation
stamps are handed out by a logical clock. -/
structure Entry where
  id : ℕ
  createdAt : ℕ
  driver : Driver
deriving DecidableEq

/-- The `drivers` collection: documents in insertion order, plus the logical
clock handing out fresh `_id`s and `createdAt` stamps. -/
structure Store where
  entries : List Entry
  nextStamp : ℕ
deriving DecidableEq

/-- The store before any administrative action: an empty collection. -/
def initialStore : Store := { entries := [], nextStamp := 0 }

/-- Lookup via `findOne({_id: id})` (the read half of `findOneAndUpdate`). -/
def findDriver (s : Store) (id : ℕ) : Option Driver :=
  (s.entries.find? (fun e => decide (e.id = id))).map (fun e => e.driver)

/-- The write half of `findOneAndUpdate`: rewrite the matched document in
place, leaving every other document untouched. -/
def updateDriver (s : Store) (id : ℕ) (f : Driver → Driver) : Store :=
  { s with entries :=
      s.entries.map (fun e =>
        if e.id = id then { e with driver := f e.driver } else e) }

/-- The tracking route's `action === 'start_tracking'` strict-equality test:
only that exact string compares equal; any other value (other strings, and
non-strings) compares unequal. -/
def isStartAction (action : JSVal) : Bool :=
  decide (action = JSVal.str "start_tracking")

/-- The document rewrite performed by POST `/api/driver/tracking`:
`isTracking: action === 'start_tracking'`, `consentGiven` likewise, and
`consentTimestamp: start ? new Date() : null`.  `now` is the server clock at
receipt. -/
def applyTracking (action : JSVal) (now : ℚ) (d : Driver) : Driver :=
  { d with
    isTracking := isStartAction action
    consentGiven := isStartAction action
    consentTimestamp := if isStartAction action then some now else none }

/-- Outcome of POST `/api/driver/tracking`: the `{success, driver}` response
(built from the updated document, `{new: true}`), or the 404 branch. -/
inductive TrackResult where
  | ok (d : Driver)
  | notFound
deriving DecidableEq

/-- POST `/api/driver/tracking`: a single `findOneAndUpdate` keyed by
`driverId`; a missing driver is the 404 `Driver not found` branch and leaves
the store untouched.  The request's `timestamp` field is destructured but
never used by this route. -/
def applyTrackingCommand (s : Store) (id : ℕ) (action : JSVal) (now : ℚ) :
    TrackResult × Store :=
  match findDriver s id with
  | none => (TrackResult.notFound, s)
  | some d =>
    (TrackResult.ok (applyTracking action now d),
     updateDriver s id (applyTracking action now))

/-- The body of POST `/api/driver/location` as destructured by the route:
`{ driverId, latitude, longitude, accuracy, timestamp, speed }`.  A field
absent from the request is `undef`. -/
structure RawLocationPayload where
  latitude : JSVal
  longitude : JSVal
  accuracy : JSVal
  timestamp : JSVal
  speed : JSVal
deriving DecidableEq

/-- Mongoose casting of the location route's update document against the
driver schema: `lat`, `lng`, `accuracy` are `Number` paths fed the raw body
values, `timestamp` is a `Date` path fed `new Date(timestamp)` (an invalid
date makes the cast throw), and `speed` is fed `speed || 0`.  A `none` result
models the CastError that makes the route answer 500 with nothing stored. -/
def normalizeLocation (p : RawLocationPayload) : Option Location :=
  (castNumber p.latitude).bind fun lat =>
  (castNumber p.longitude).bind fun lng =>
  (castNumber p.accuracy).bind fun accuracy =>
  (jsDate p.timestamp).bind fun ts =>
  (castNumber (if truthy p.speed then p.speed else JSVal.num 0)).bind fun sp =>
  some { lat := lat, lng := lng, accuracy := accuracy, timestamp := ts,
         speed := sp.getD 0 }

/-- Outcome of POST `/api/driver/location`: success, the 404 branch, or the
500 branch taken when Mongoose casting of the update throws. -/
inductive LocResult where
  | ok
  | notFound
  | castError
deriving DecidableEq

/-- POST `/api/driver/location`: Mongoose casts the update document first
(a CastError is caught by the route's try/catch and answered as 500 with
nothing stored); otherwise the single `findOneAndUpdate` either misses (404)
or atomically sets `lastLocation` and `$push`es the same location onto
`trackingHistory`.  There is no check of `isTracking`. -/
def applyLocationUpdate (s : Store) (id : ℕ) (p : RawLocationPayload) :
    LocResult × Store :=
  match normalizeLocation p with
  | none => (LocResult.castError, s)
  | some loc =>
    match findDriver s id with
    | none => (LocResult.notFound, s)
    | some _ =>
      (LocResult.ok, updateDriver s id (fun d =>
        { d with lastLocation := some loc,
                 trackingHistory := d.trackingHistory ++ [loc] }))

/-- A sequence of location submissions for one driver, applied in arrival
order. -/
def applyLocationUpdates (s : Store) (id : ℕ)
    (ps : List RawLocationPayload) : Store :=
  ps.foldl (fun acc p => (applyLocationUpdate acc id p).2) s

/-- Mongoose casting of a whole batch of location payloads, in order:
`some` of the normalized locations when every cast succeeds, `none` as soon
as one of them throws. -/
def normalizeAll : List RawLocationPayload → Option (List Location)
  | [] => some []
  | p :: ps =>
      (normalizeLocation p).bind fun l =>
      (normalizeAll ps).bind fun ls =>
      some (l :: ls)

/-- A freshly created driver: schema defaults (`isTracking: false`,
`consentGiven: false`, everything else unset / empty). -/
def blankDriver (name phone : String) : Driver :=
  { name := name, phone := phone, isTracking := false, consentGiven := false,
    consentTimestamp := none, lastLocation := none, trackingHistory := [] }

/-- POST `/api/drivers`: `new Driver({name, phone}); save()`.  Mongoose's
`required` validator on a `String` path rejects a missing or empty string, so
an empty name or phone fails validation and nothing is inserted. -/
def createDriver (s : Store) (name phone : String) :
    Option (Driver × Store) :=
  if name = "" ∨ phone = "" then none
  else
    some (blankDriver name phone,
      { entries := s.entries ++
          [{ id := s.nextStamp, createdAt := s.nextStamp,
             driver := blankDriver name phone }],
        nextStamp := s.nextStamp + 1 })

/-- The fixed sample roster inserted by POST `/api/init-drivers`. -/
def sampleRoster : List Driver :=
  [blankDriver "John Smith" "+1-555-0101",
   blankDriver "Maria Garcia" "+1-555-0102",
   blankDriver "David Johnson" "+1-555-0103",
   blankDriver "Sarah Williams" "+1-555-0104"]

/-- POST `/api/init-drivers`: `deleteMany({})`, then `insertMany` of the
sample roster; the response carries `drivers.length`, the number inserted. -/
def seedSampleDrivers (s : Store) : ℕ × Store :=
  let inserted : List Entry :=
    [{ id := s.nextStamp, createdAt := s.nextStamp,
       driver := blankDriver "John Smith" "+1-555-0101" },
     { id := s.nextStamp + 1, createdAt := s.nextStamp + 1,
       driver := blankDriver "Maria Garcia" "+1-555-0102" },
     { id := s.nextStamp + 2, createdAt := s.nextStamp + 2,
       driver := blankDriver "David Johnson" "+1-555-0103" },
     { id := s.nextStamp + 3, createdAt := s.nextStamp + 3,
       driver := blankDriver "Sarah Williams" "+1-555-0104" }]
  (inserted.length, { entries := inserted, nextStamp := s.nextStamp + 4 })

/-- The hard-coded fallback the listing route answers with when
`Driver.find()` throws (database unreachable).  The mock documents carry only
`_id`, `name`, `phone` and `isTracking: false`; the remaining fields are
absent and modelled by the schema defaults. -/
def mockFallback : List Entry :=
  [{ id := 1, createdAt := 0, driver := blankDriver "John Smith" "+1-555-0101" },
   { id := 2, createdAt := 0, driver := blankDriver "Maria Garcia" "+1-555-0102" }]

/-- The comparison realised by `.sort({ createdAt: -1 })`: newest first. -/
def newerFirst (a b : Entry) : Prop := b.createdAt ≤ a.createdAt

instance : DecidableRel newerFirst :=
  fun a b => inferInstanceAs (Decidable (b.createdAt ≤ a.createdAt))

instance : IsTotal Entry newerFirst :=
  ⟨fun a b => Nat.le_total b.createdAt a.createdAt⟩

instance : IsTrans Entry newerFirst :=
  ⟨fun _ _ _ h1 h2 => Nat.le_trans h2 h1⟩

/-- GET `/api/drivers`: on a reachable store (`up = true`),
`Driver.find().sort({createdAt: -1})`; when the store is unreachable the
catch branch answers with the mock fallback instead of an error. -/
def listDrivers (up : Bool) (s : Store) : List Entry :=
  if up then List.insertionSort newerFirst s.entries else mockFallback

/-- Stores reachable from the empty collection through the API's mutating
operations. -/
inductive Reachable : Store → Prop where
  | init : Reachable initialStore
  | create (s : Store) (name phone : String) (d : Driver) (s' : Store) :
      Reachable s → createDriver s name phone = some (d, s') → Reachable s'
  | seed (s : Store) : Reachable s → Reachable (seedSampleDrivers s).2
  | track (s : Store) (id : ℕ) (action : JSVal) (now : ℚ) :
      Reachable s → Reachable (applyTrackingCommand s id action now).2
  | loc (s : Store) (id : ℕ) (p : RawLocationPayload) :
      Reachable s → Reachable (applyLocationUpdate s id p).2

/-- The consent invariant of a single driver document: a tracking driver has
given consent and carries a consent timestamp. -/
def driverInv (d : Driver) : Prop :=
  d.isTracking = true → d.consentGiven = true ∧ d.consentTimestamp.isSome = true

/-- A concrete driver used by the witnesses: currently tracking, with consent
recorded and an empty history. -/
def demoDriver : Driver :=
  { blankDriver "Alice" "+1-555-9999" with
    isTracking := true
    consentGiven := true
    consentTimestamp := some 3 }

/-- A concrete driver used by the witnesses: not tracking, empty history. -/
def idleDriver : Driver := blankDriver "Bob" "+1-555-8888"

/-- A concrete one-driver store used by the witnesses (driver `_id` 1). -/
def demoStore : Store :=
  { entries := [{ id := 1, createdAt := 0, driver := demoDriver }],
    nextStamp := 2 }

/-- A concrete one-driver store whose driver is not tracking (`_id` 5). -/
def idleStore : Store :=
  { entries := [{ id := 5, createdAt := 0, driver := idleDriver }],
    nextStamp := 6 }

/-- A location body with `latitude` absent and everything else well formed. -/
def pMissingLat : RawLocationPayload :=
  { latitude := JSVal.undef, longitude := JSVal.num 5,
    accuracy := JSVal.undef, timestamp := JSVal.num 1000,
    speed := JSVal.undef }

/-- A location body whose `latitude` is the non-numeric string `"abc"`. -/
def pBadLat : RawLocationPayload :=
  { latitude := JSVal.str "abc", longitude := JSVal.num 2,
    accuracy := JSVal.undef, timestamp := JSVal.num 1000,
    speed := JSVal.undef }

/-- A well-formed location body except that `timestamp` is absent. -/
def pNoTimestamp : RawLocationPayload :=
  { latitude := JSVal.num 1, longitude := JSVal.num 2,
    accuracy := JSVal.undef, timestamp := JSVal.undef,
    speed := JSVal.undef }

/-- A well-formed location body except that `timestamp` is the unparsable
string `"garbage"`. -/
def pGarbageTs : RawLocationPayload :=
  { latitude := JSVal.num 1, longitude := JSVal.num 2,
    accuracy := JSVal.undef, timestamp := JSVal.str "garbage",
    speed := JSVal.undef }

/-- A fully well-formed location body. -/
def pGood : RawLocationPayload :=
  { latitude := JSVal.num 40, longitude := JSVal.num (-74),
    accuracy := JSVal.num 5, timestamp := JSVal.str "2024-01-15",
    speed := JSVal.num 12 }

/-- A second fully well-formed location body (speed absent, defaulted). -/
def pGood2 : RawLocationPayload :=
  { latitude := JSVal.num 41, longitude := JSVal.num (-73),
    accuracy := JSVal.undef, timestamp := JSVal.num 2000,
    speed := JSVal.undef }

/-- The normalized form of `pGood`. -/
def locGood : Location :=
  { lat := some 40, lng := some (-74), accuracy := some 5,
    timestamp := ((20240115 : ℕ) : ℚ), speed := 12 }

/-- The normalized form of `pGood2`: `speed || 0` defaults the speed. -/
def locGood2 : Location :=
  { lat := some 41, lng := some (-73), accuracy := none,
    timestamp := 2000, speed := 0 }

/-- The store obtained by seeding the empty store and then starting tracking
for the first seeded driver (`_id` 0) at server time 7. -/
def trackedStore : Store :=
  (applyTrackingCommand (seedSampleDrivers initialStore).2 0
    (JSVal.str "start_tracking") 7).2

/-- The first seeded driver's store entry after the start transition of
`trackedStore`. -/
def johnTrackedEntry : Entry :=
  { id := 0, createdAt := 0,
    driver := { blankDriver "John Smith" "+1-555-0101" with
      isTracking := true
      consentGiven := true
      consentTimestamp := some 7 } }

/-! ## Helper lemmas about the store primitives -/

theorem find?_map_update (id : ℕ) (f : Driver → Driver) :
    ∀ l : List Entry,
      (l.map (fun e =>
          if e.id = id then { e with driver := f e.driver } else e)).find?
          (fun e => decide (e.id = id)) =
        (l.find? (fun e => decide (e.id = id))).map
          (fun e => { e with driver := f e.driver })
  | [] => rfl
  | a :: l => by
      by_cases h : a.id = id
      · simp [List.find?_cons, h]
      · simp [List.find?_cons, h, find?_map_update id f l]

theorem findDriver_updateDriver (s : Store) (id : ℕ) (f : Driver → Driver) :
    findDriver (updateDriver s id f) id = (findDriver s id).map f := by
  unfold findDriver updateDriver
  rw [find?_map_update]
  cases s.entries.find? (fun e => decide (e.id = id)) <;> rfl

theorem applyTrackingCommand_of_found {s : Store} {id : ℕ} {d : Driver}
    (action : JSVal) (now : ℚ) (hf : findDriver s id = some d) :
    applyTrackingCommand s id action now =
      (TrackResult.ok (applyTracking action now d),
       updateDriver s id (applyTracking action now)) := by
  unfold applyTrackingCommand
  rw [hf]

theorem applyTrackingCommand_of_missing {s : Store} {id : ℕ}
    (action : JSVal) (now : ℚ) (hf : findDriver s id = none) :
    applyTrackingCommand s id action now = (TrackResult.notFound, s) := by
  unfold applyTrackingCommand
  rw [hf]

theorem applyLocationUpdate_of_castError {s : Store} {id : ℕ}
    {p : RawLocationPayload} (hp : normalizeLocation p = none) :
    applyLocationUpdate s id p = (LocResult.castError, s) := by
  unfold applyLocationUpdate
  rw [hp]

theorem applyLocationUpdate_of_missing {s : Store} {id : ℕ}
    {p : RawLocationPayload} {loc : Location}
    (hp : normalizeLocation p = some loc) (hf : findDriver s id = none) :
    applyLocationUpdate s id p = (LocResult.notFound, s) := by
  unfold applyLocationUpdate
  rw [hp, hf]

theorem applyLocationUpdate_of_found {s : Store} {id : ℕ}
    {p : RawLocationPayload} {loc : Location} {d : Driver}
    (hp : normalizeLocation p = some loc) (hf : findDriver s id = some d) :
    applyLocationUpdate s id p =
      (LocResult.ok, updateDriver s id (fun x =>
        { x with lastLocation := some loc,
                 trackingHistory := x.trackingHistory ++ [loc] })) := by
  unfold applyLocationUpdate
  rw [hp, hf]

theorem isStartAction_eq_false {action : JSVal}
    (ha : action ≠ JSVal.str "start_tracking") :
    isStartAction action = false := by
  simp [isStartAction, ha]

theorem applyTracking_inv (action : JSVal) (now : ℚ) (d : Driver) :
    driverInv (applyTracking action now d) := by
  unfold driverInv applyTracking
  by_cases h : isStartAction action = true <;> simp [h]

theorem getLast?_or {α : Type} (a : α) (l : List α) (o : Option α) :
    Option.or (a :: l).getLast? o = Option.or l.getLast? (some a) := by
  cases l with
  | nil => rfl
  | cons b bs =>
      rw [List.getLast?_cons_cons]
      cases hx : (b :: bs).getLast? with
      | none => exact absurd hx (by simp [List.getLast?_eq_none_iff])
      | some x => rfl

theorem reachable_storeInv (s : Store) (hs : Reachable s) :
    ∀ e ∈ s.entries, driverInv e.driver := by
  induction hs with
  | init => intro e he; simp [initialStore] at he
  | create s name phone d s' _ heq ih =>
      intro e he
      by_cases hc : name = "" ∨ phone = ""
      · simp [createDriver, hc] at heq
      · simp only [createDriver, hc, if_neg, ite_false, Option.some.injEq,
          Prod.mk.injEq] at heq
        rcases heq with ⟨-, hs'⟩
        subst hs'
        simp only [List.mem_append, List.mem_singleton] at he
        rcases he with he | rfl
        · exact ih e he
        · simp [driverInv, blankDriver]
  | seed s _ _ =>
      intro e he
      simp only [seedSampleDrivers, List.mem_cons, List.not_mem_nil,
        or_false] at he
      rcases he with rfl | rfl | rfl | rfl <;> simp [driverInv, blankDriver]
  | track s id action now _ ih =>
      intro e he
      cases hf : findDriver s id with
      | none =>
          rw [applyTrackingCommand_of_missing action now hf] at he
          exact ih e he
      | some d0 =>
          rw [applyTrackingCommand_of_found action now hf] at he
          simp only [updateDriver, List.mem_map] at he
          rcases he with ⟨a, ha, rfl⟩
          by_cases hid : a.id = id
          · simpa [hid] using applyTracking_inv action now a.driver
          · simpa [hid] using ih a ha
  | loc s id p _ ih =>
      intro e he
      cases hp : normalizeLocation p with
      | none =>
          rw [applyLocationUpdate_of_castError hp] at he
          exact ih e he
      | some l0 =>
          cases hf : findDriver s id with
          | none =>
              rw [applyLocationUpdate_of_missing hp hf] at he
              exact ih e he
          | some d0 =>
              rw [applyLocationUpdate_of_found hp hf] at he
              simp only [updateDriver, List.mem_map] at he
              rcases he with ⟨a, ha, rfl⟩
              by_cases hid : a.id = id
              · simpa [hid, driverInv] using ih a ha
              · simpa [hid] using ih a ha

theorem normalizeAll_length (ps : List RawLocationPayload) :
    ∀ locs, normalizeAll ps = some locs → locs.length = ps.length := by
  induction ps with
  | nil =>
      intro locs h
      simp only [normalizeAll, Option.some.injEq] at h
      subst h
      rfl
  | cons p ps ih =>
      intro locs h
      simp only [normalizeAll] at h
      cases hp : normalizeLocation p with
      | none => simp [hp] at h
      | some l =>
          cases hps : normalizeAll ps with
          | none => simp [hp, hps] at h
          | some ls =>
              simp only [hp, hps, Option.some_bind, Option.some.injEq] at h
              subst h
              simp [ih ls hps]

theorem applyLocationUpdates_found (ps : List RawLocationPayload) :
    ∀ (s : Store) (id : ℕ) (d : Driver) (locs : List Location),
      findDriver s id = some d →
      normalizeAll ps = some locs →
      findDriver (applyLocationUpdates s id ps) id = some
        { d with
          lastLocation := Option.or locs.getLast? d.lastLocation
          trackingHistory := d.trackingHistory ++ locs } := by
  induction ps with
  | nil =>
      intro s id d locs hd hm
      simp only [normalizeAll, Option.some.injEq] at hm
      subst hm
      simpa [applyLocationUpdates, Option.or] using hd
  | cons p ps ih =>
      intro s id d locs hd hm
      simp only [normalizeAll] at hm
      cases hp : normalizeLocation p with
      | none => simp [hp] at hm
      | some l =>
          cases hps : normalizeAll ps with
          | none => simp [hp, hps] at hm
          | some ls =>
              simp only [hp, hps, Option.some_bind, Option.some.injEq] at hm
              subst hm
              have hstep : applyLocationUpdates s id (p :: ps) =
                  applyLocationUpdates (applyLocationUpdate s id p).2 id ps := rfl
              rw [hstep, applyLocationUpdate_of_found hp hd]
              have hd1 : findDriver (updateDriver s id (fun x =>
                  { x with lastLocation := some l,
                           trackingHistory := x.trackingHistory ++ [l] })) id =
                  some { d with
                    lastLocation := some l
                    trackingHistory := d.trackingHistory ++ [l] } := by
                rw [findDriver_updateDriver, hd]
                rfl
              rw [ih _ id _ ls hd1 hps]
              simp [getLast?_or, List.append_assoc]

/-! ## The claims -/

/-- C1: for every existing driver and every action value other than the exact
string `start_tracking` (other strings such as `stop_tracking` or the empty
string, and non-string values alike), the tracking command yields a driver
with `isTracking = false`, both in the response and in the stored document:
no ambiguous or malformed action leaves a driver tracking. -/
theorem tracking_fail_safe (s : Store) (id : ℕ) (action : JSVal) (now : ℚ)
    (d : Driver)
    (ha : action ≠ JSVal.str "start_tracking")
    (h : (applyTrackingCommand s id action now).1 = TrackResult.ok d) :
    d.isTracking = false ∧
    (findDriver (applyTrackingCommand s id action now).2 id).map
      (fun x => x.isTracking) = some false := by
  have hstart := isStartAction_eq_false ha
  cases hf : findDriver s id with
  | none =>
      rw [applyTrackingCommand_of_missing action now hf] at h
      exact TrackResult.noConfusion h
  | some d0 =>
      rw [applyTrackingCommand_of_found action now hf] at h
      rw [applyTrackingCommand_of_found action now hf]
      injection h with h2
      subst h2
      constructor
      · simp [applyTracking, hstart]
      · simp [findDriver_updateDriver, hf, applyTracking, hstart]

/-- Witness for C1: the `stop_tracking` action on the demo store's tracking
driver leaves `isTracking = false` in response and store. -/
theorem tracking_fail_safe_witness :
    (applyTracking (JSVal.str "stop_tracking") 7 demoDriver).isTracking
        = false ∧
    (findDriver
        (applyTrackingCommand demoStore 1 (JSVal.str "stop_tracking") 7).2
        1).map (fun x => x.isTracking) = some false :=
  tracking_fail_safe demoStore 1 (JSVal.str "stop_tracking") 7
    (applyTracking (JSVal.str "stop_tracking") 7 demoDriver)
    (by decide) (by decide)

/-- C2: every driver state reachable through `createDriver`,
`seedSampleDrivers`, `applyTrackingCommand` and `applyLocationUpdate`
satisfies the invariant: `isTracking = true` implies `consentGiven = true`
and `consentTimestamp` is set. -/
theorem reachable_consent_invariant (s : Store) (e : Entry)
    (hs : Reachable s) (he : e ∈ s.entries)
    (ht : e.driver.isTracking = true) :
    e.driver.consentGiven = true ∧ e.driver.consentTimestamp.isSome = true :=
  reachable_storeInv s hs e he ht

/-- Witness for C2: in the store reached by seeding and then starting
tracking for driver 0, that driver's entry satisfies the invariant. -/
theorem reachable_consent_invariant_witness :
    johnTrackedEntry.driver.consentGiven = true ∧
    johnTrackedEntry.driver.consentTimestamp.isSome = true :=
  reachable_consent_invariant trackedStore johnTrackedEntry
    (Reachable.track (seedSampleDrivers initialStore).2 0
      (JSVal.str "start_tracking") 7
      (Reachable.seed initialStore Reachable.init))
    (by decide) (by decide)

/-- C7: a stop transition (any non-`start_tracking` action) clears
`consentGiven` and `consentTimestamp` and changes no other field of the
driver: `trackingHistory`, `lastLocation`, `name` and `phone` are those of
the driver found in the store. -/
theorem stop_preserves_frame (s : Store) (id : ℕ) (action : JSVal) (now : ℚ)
    (d d' : Driver)
    (ha : action ≠ JSVal.str "start_tracking")
    (hf : findDriver s id = some d)
    (h : (applyTrackingCommand s id action now).1 = TrackResult.ok d') :
    d'.consentGiven = false ∧ d'.consentTimestamp = none ∧
    d'.trackingHistory = d.trackingHistory ∧
    d'.lastLocation = d.lastLocation ∧
    d'.name = d.name ∧ d'.phone = d.phone := by
  have hstart := isStartAction_eq_false ha
  rw [applyTrackingCommand_of_found action now hf] at h
  injection h with h2
  subst h2
  simp [applyTracking, hstart]

/-- Witness for C7: stopping the demo driver clears consent and keeps the
frame fields. -/
theorem stop_preserves_frame_witness :
    (applyTracking (JSVal.str "stop_tracking") 9 demoDriver).consentGiven
        = false ∧
    (applyTracking (JSVal.str "stop_tracking") 9 demoDriver).consentTimestamp
        = none ∧
    (applyTracking (JSVal.str "stop_tracking") 9 demoDriver).trackingHistory
        = demoDriver.trackingHistory ∧
    (applyTracking (JSVal.str "stop_tracking") 9 demoDriver).lastLocation
        = demoDriver.lastLocation ∧
    (applyTracking (JSVal.str "stop_tracking") 9 demoDriver).name
        = demoDriver.name ∧
    (applyTracking (JSVal.str "stop_tracking") 9 demoDriver).phone
        = demoDriver.phone :=
  stop_preserves_frame demoStore 1 (JSVal.str "stop_tracking") 9
    demoDriver (applyTracking (JSVal.str "stop_tracking") 9 demoDriver)
    (by decide) (by decide) (by decide)

/-- C8: seeding replaces the whole collection: afterwards the store holds
exactly the fixed four-driver roster in roster order, whatever it held
before, and the returned count is the number inserted, 4. -/
theorem seed_replaces_roster (s : Store) :
    (seedSampleDrivers s).2.entries.map (fun e => e.driver) = sampleRoster ∧
    (seedSampleDrivers s).2.entries.length = 4 ∧
    (seedSampleDrivers s).1 = 4 :=
  ⟨rfl, rfl, rfl⟩

/-- C9: listing never fails outward: with the store unreachable it answers
the fixed two-driver mock fallback (non-empty), and with the store reachable
it answers exactly the stored drivers, ordered newest-created first (sorted
by descending `createdAt`, a permutation of the collection). -/
theorem listDrivers_degraded_and_sorted (s : Store) :
    listDrivers false s = mockFallback ∧
    mockFallback.length = 2 ∧
    List.Sorted newerFirst (listDrivers true s) ∧
    List.Perm (listDrivers true s) s.entries := by
  refine ⟨rfl, rfl, ?_, ?_⟩
  · simpa [listDrivers] using List.sorted_insertionSort newerFirst s.entries
  · simpa [listDrivers] using List.perm_insertionSort newerFirst s.entries

theorem normalizeLocation_eq_none_of_coord {p : RawLocationPayload}
    (h : castNumber p.latitude = none ∨ castNumber p.longitude = none) :
    normalizeLocation p = none := by
  unfold normalizeLocation
  rcases h with h | h
  · rw [h]
    rfl
  · cases hl : castNumber p.latitude with
    | none => rfl
    | some a =>
        rw [h]
        rfl

theorem normalizeLocation_eq_none_of_ts {p : RawLocationPayload}
    (h : jsDate p.timestamp = none) : normalizeLocation p = none := by
  unfold normalizeLocation
  rw [h]
  cases castNumber p.latitude <;> cases castNumber p.longitude <;>
    cases castNumber p.accuracy <;> rfl

/-- C3 counterexample: a payload with `latitude` absent (and everything else
well formed) is *not* rejected by the location route for the demo driver:
the call succeeds, an entry is appended to the previously empty history and
the snapshot is overwritten with a location missing its latitude. -/
theorem location_missing_coordinate_accepted :
    (applyLocationUpdate demoStore 1 pMissingLat).1 = LocResult.ok ∧
    (findDriver (applyLocationUpdate demoStore 1 pMissingLat).2 1).map
      (fun d => d.trackingHistory.length) = some 1 ∧
    (findDriver (applyLocationUpdate demoStore 1 pMissingLat).2 1).map
      (fun d => d.lastLocation) = some (some
        { lat := none, lng := some 5, accuracy := none,
          timestamp := 1000, speed := 0 }) ∧
    demoDriver.trackingHistory = [] ∧ demoDriver.lastLocation = none := by
  decide

/-- C3 amended: the route performs no validation of its own; a payload whose
`lat` or `lng` fails the Mongoose numeric cast (e.g. a non-numeric string)
makes the update throw — answered as an error with `trackingHistory` and
`lastLocation` (indeed the whole store) unchanged — while a payload whose
`lat` or `lng` is merely missing is accepted and stored without that
coordinate. -/
theorem location_uncastable_coordinate_rejected (s : Store) (id : ℕ)
    (p : RawLocationPayload)
    (h : castNumber p.latitude = none ∨ castNumber p.longitude = none) :
    (applyLocationUpdate s id p).1 = LocResult.castError ∧
    (applyLocationUpdate s id p).2 = s := by
  rw [applyLocationUpdate_of_castError (normalizeLocation_eq_none_of_coord h)]
  exact ⟨rfl, rfl⟩

/-- Witness for the amended C3: latitude `"abc"` is rejected and the demo
store is left unchanged. -/
theorem location_uncastable_coordinate_rejected_witness :
    (applyLocationUpdate demoStore 1 pBadLat).1 = LocResult.castError ∧
    (applyLocationUpdate demoStore 1 pBadLat).2 = demoStore :=
  location_uncastable_coordinate_rejected demoStore 1 pBadLat (by decide)

/-- C4 counterexample: with `timestamp` absent the route does not substitute
the server's receipt time: `new Date(undefined)` is an Invalid Date, the
cast throws, the call fails and nothing is stored at all. -/
theorem location_absent_timestamp_not_substituted :
    (applyLocationUpdate demoStore 1 pNoTimestamp).1 ≠ LocResult.ok ∧
    (applyLocationUpdate demoStore 1 pNoTimestamp).1 = LocResult.castError ∧
    (applyLocationUpdate demoStore 1 pNoTimestamp).2 = demoStore := by
  decide

/-- C4 amended: whenever the payload's `timestamp` does not produce a valid
date — when it is absent (`new Date(undefined)` is invalid) just as when it
is an explicitly invalid timestamp string — the update fails the cast and
nothing is stored; the receipt time is never substituted. -/
theorem location_invalid_timestamp_rejected (s : Store) (id : ℕ)
    (p : RawLocationPayload)
    (h : jsDate p.timestamp = none) :
    (applyLocationUpdate s id p).1 = LocResult.castError ∧
    (applyLocationUpdate s id p).2 = s := by
  rw [applyLocationUpdate_of_castError (normalizeLocation_eq_none_of_ts h)]
  exact ⟨rfl, rfl⟩

/-- Witness for the amended C4: the timestamp string `"garbage"` is rejected
and the demo store is left unchanged. -/
theorem location_invalid_timestamp_rejected_witness :
    (applyLocationUpdate demoStore 1 pGarbageTs).1 = LocResult.castError ∧
    (applyLocationUpdate demoStore 1 pGarbageTs).2 = demoStore :=
  location_invalid_timestamp_rejected demoStore 1 pGarbageTs (by decide)

/-- C5: an operation referencing a driver id not present in the store fails
with the not-found error, creates no driver and leaves the whole store —
hence any subsequent listing — unchanged.  (For the location route this is
stated for payloads that pass the cast; a payload that fails the cast errors
out earlier, also without touching the store.) -/
theorem unknown_driver_rejected (s : Store) (id : ℕ) (action : JSVal)
    (now : ℚ) (p : RawLocationPayload) (loc : Location)
    (hf : findDriver s id = none)
    (hp : normalizeLocation p = some loc) :
    (applyTrackingCommand s id action now).1 = TrackResult.notFound ∧
    (applyTrackingCommand s id action now).2 = s ∧
    (applyLocationUpdate s id p).1 = LocResult.notFound ∧
    (applyLocationUpdate s id p).2 = s ∧
    listDrivers true (applyTrackingCommand s id action now).2 =
      listDrivers true s ∧
    listDrivers true (applyLocationUpdate s id p).2 = listDrivers true s := by
  rw [applyTrackingCommand_of_missing action now hf,
      applyLocationUpdate_of_missing hp hf]
  exact ⟨rfl, rfl, rfl, rfl, rfl, rfl⟩

/-- Witness for C5: id 99 is absent from the empty initial store; both
routes answer not-found and the store stays empty. -/
theorem unknown_driver_rejected_witness :
    (applyTrackingCommand initialStore 99 (JSVal.str "start_tracking") 7).1
        = TrackResult.notFound ∧
    (applyTrackingCommand initialStore 99 (JSVal.str "start_tracking") 7).2
        = initialStore ∧
    (applyLocationUpdate initialStore 99 pGood).1 = LocResult.notFound ∧
    (applyLocationUpdate initialStore 99 pGood).2 = initialStore ∧
    listDrivers true
        (applyTrackingCommand initialStore 99
          (JSVal.str "start_tracking") 7).2 =
      listDrivers true initialStore ∧
    listDrivers true (applyLocationUpdate initialStore 99 pGood).2 =
      listDrivers true initialStore :=
  unknown_driver_rejected initialStore 99 (JSVal.str "start_tracking") 7
    pGood locGood (by decide) (by decide)

/-- C6: starting from a driver with empty history, a sequence of N location
submissions that all pass the cast succeeds end to end: afterwards the
history is exactly the N normalized locations in arrival order (no call
lost, none deduplicated) and the snapshot equals the Nth normalized location
(speed defaulted to 0 when absent), each call updating both in the same
single `findOneAndUpdate`. -/
theorem history_monotonicity (s : Store) (id : ℕ) (d : Driver)
    (ps : List RawLocationPayload) (locs : List Location)
    (hd : findDriver s id = some d)
    (hh : d.trackingHistory = [])
    (hm : normalizeAll ps = some locs) :
    (findDriver (applyLocationUpdates s id ps) id).map
      (fun x => x.trackingHistory) = some locs ∧
    locs.length = ps.length ∧
    (findDriver (applyLocationUpdates s id ps) id).map
      (fun x => x.lastLocation) =
        some (Option.or locs.getLast? d.lastLocation) := by
  have h := applyLocationUpdates_found ps s id d locs hd hm
  rw [h]
  refine ⟨?_, normalizeAll_length ps locs hm, rfl⟩
  simp [hh]

/-- Witness for C6: two valid submissions on the demo driver leave a
two-element history in arrival order with the second as snapshot. -/
theorem history_monotonicity_witness :
    (findDriver (applyLocationUpdates demoStore 1 [pGood, pGood2]) 1).map
      (fun x => x.trackingHistory) = some [locGood, locGood2] ∧
    ([locGood, locGood2] : List Location).length =
      ([pGood, pGood2] : List RawLocationPayload).length ∧
    (findDriver (applyLocationUpdates demoStore 1 [pGood, pGood2]) 1).map
      (fun x => x.lastLocation) =
        some (Option.or ([locGood, locGood2] : List Location).getLast?
          demoDriver.lastLocation) :=
  history_monotonicity demoStore 1 demoDriver [pGood, pGood2]
    [locGood, locGood2] (by decide) (by decide) (by decide)

/-- C10: a location payload that passes the cast is accepted for an existing
driver with no check of the tracking state, and the stored document changes
only in `lastLocation` and `trackingHistory`: `isTracking`, `consentGiven`,
`consentTimestamp`, `name` and `phone` keep the values of the driver found
in the store. -/
theorem location_no_tracking_gate (s : Store) (id : ℕ)
    (p : RawLocationPayload) (loc : Location) (d : Driver)
    (hf : findDriver s id = some d)
    (hp : normalizeLocation p = some loc) :
    (applyLocationUpdate s id p).1 = LocResult.ok ∧
    findDriver (applyLocationUpdate s id p).2 id = some
      { d with
        lastLocation := some loc
        trackingHistory := d.trackingHistory ++ [loc] } := by
  rw [applyLocationUpdate_of_found hp hf]
  refine ⟨rfl, ?_⟩
  rw [findDriver_updateDriver, hf]
  rfl

/-- Witness for C10: a valid payload is accepted for the idle (non-tracking)
driver and only the location fields change. -/
theorem location_no_tracking_gate_witness :
    (applyLocationUpdate idleStore 5 pGood).1 = LocResult.ok ∧
    findDriver (applyLocationUpdate idleStore 5 pGood).2 5 = some
      { idleDriver with
        lastLocation := some locGood
        trackingHistory := idleDriver.trackingHistory ++ [locGood] } :=
  location_no_tracking_gate idleStore 5 pGood locGood idleDriver
    (by decide) (by decide)

end TCITrucking
